import Mathlib

/-!
Verification of the rule-evaluation core of the financial-statement analyzer.

The program under study is a small Python code base (`book/rules.py`,
`book/model.py`); requests hand it a JSON-decoded document, so every value the
core can touch is a JSON value: `null`, a boolean, a number, a string, a list,
or a string-keyed object.  We embed these values as `JVal` and embed each
Python function as a Lean function returning `Except PyError JVal`, where
`PyError` names the class of the Python exception that the corresponding
Python code would raise.  Numbers are embedded as rationals.

The embedded operations mirror the exact semantics of the Python constructs
used by the source, in particular:
  * `d.get(k, default)` on a dict (and `AttributeError` on anything else);
  * subscripting `xs[i]` with Python negative-index semantics
    (`IndexError` out of range, `TypeError` on `None` and numbers, `KeyError`
    on a dict subscripted with an integer key);
  * `==` against the numeric literal `0` (`True`/`False` compare as `1`/`0`);
  * `+`, `/`, `>=`, `<=` restricted to the operand shapes reachable in the
    source (`/` raises `ZeroDivisionError` on a zero divisor and `TypeError`
    on non-numeric operands; comparisons against numeric literals raise
    `TypeError` on non-numeric, non-boolean operands).

`rules.py` references a global name `FLAGS` that is never defined or imported
in the module, so each flag classifier evaluates its threshold comparison and
then raises `NameError`; the embedding reflects that.  `model.py` invokes
`total_revenue(data)` and `profit_margin(data)` with a single argument even
though both functions require two, so the call raises `TypeError` as soon as
it is reached; the embedding reflects that as well.
-/

/-- A JSON value, the universe of data reachable by the core: the transport
shell decodes the uploaded file with a JSON parse before calling it. -/
inductive JVal : Type where
  | null : JVal
  | bool : Bool → JVal
  | num : ℚ → JVal
  | str : String → JVal
  | list : List JVal → JVal
  | obj : List (String × JVal) → JVal

/-- The class of the Python exception raised by an embedded operation.
`valueError` is the InvalidInput condition of the spec (the source raises
`ValueError` for it). -/
inductive PyError : Type where
  | valueError : PyError
  | typeError : PyError
  | attributeError : PyError
  | indexError : PyError
  | keyError : PyError
  | zeroDivisionError : PyError
  | nameError : PyError
  deriving DecidableEq

/-- Python `isinstance(v, dict)` for JSON values. -/
def isDict (v : JVal) : Bool :=
  match v with
  | .obj _ => true
  | _ => false

/-- Python `v.get(k, dflt)`: keyed lookup with a default on a dict,
`AttributeError` on every other JSON value. -/
def pyGet (v : JVal) (k : String) (dflt : JVal) : Except PyError JVal :=
  match v with
  | .obj kvs => .ok ((kvs.lookup k).getD dflt)
  | _ => .error .attributeError

/-- Python sequence-index normalization: a negative index counts from the
end of a sequence of length `n`. -/
def pyIndex (i : Int) (n : Nat) : Int :=
  if i < 0 then i + n else i

/-- Python `v[i]` for an integer `i`: sequence indexing with negative-index
support and `IndexError` out of range on lists and strings, `KeyError` on a
dict (its keys are strings, so an integer key is never present), and
`TypeError` on `None`, numbers and booleans. -/
def pySubscript (v : JVal) (i : Int) : Except PyError JVal :=
  match v with
  | .list xs =>
    if 0 ≤ pyIndex i xs.length then
      match xs.get? (pyIndex i xs.length).toNat with
      | some x => .ok x
      | none => .error .indexError
    else .error .indexError
  | .str s =>
    if 0 ≤ pyIndex i s.toList.length then
      match s.toList.get? (pyIndex i s.toList.length).toNat with
      | some c => .ok (.str (String.mk [c]))
      | none => .error .indexError
    else .error .indexError
  | .obj _ => .error .keyError
  | .null => .error .typeError
  | .num _ => .error .typeError
  | .bool _ => .error .typeError

/-- Python `v == q` against a numeric literal: numbers compare by value,
booleans compare as `1`/`0`, every other JSON value compares unequal. -/
def pyEqNum (v : JVal) (q : ℚ) : Bool :=
  match v with
  | .num a => decide (a = q)
  | .bool b => decide ((if b then (1 : ℚ) else 0) = q)
  | _ => false

/-- Python `v == s` against a string literal: only a string can be equal. -/
def pyEqStr (v : JVal) (s : String) : Bool :=
  match v with
  | .str a => decide (a = s)
  | _ => false

/-- The numeric value of a JSON value, when it has one (booleans count as
`1`/`0`, exactly as in Python arithmetic). -/
def pyToNum (v : JVal) : Option ℚ :=
  match v with
  | .num a => some a
  | .bool b => some (if b then 1 else 0)
  | _ => none

/-- Python `a + b` restricted to JSON values: numeric addition (with boolean
coercion), string and list concatenation, `TypeError` otherwise. -/
def pyAdd (a b : JVal) : Except PyError JVal :=
  match a, b with
  | .str x, .str y => .ok (.str (x ++ y))
  | .list x, .list y => .ok (.list (x ++ y))
  | x, y =>
    match pyToNum x, pyToNum y with
    | some p, some q => .ok (.num (p + q))
    | _, _ => .error .typeError

/-- Python `a / b`: true division on numeric operands (booleans coerce),
`ZeroDivisionError` on a zero divisor, `TypeError` otherwise. -/
def pyDiv (a b : JVal) : Except PyError JVal :=
  match pyToNum a with
  | none => .error .typeError
  | some x =>
    match pyToNum b with
    | none => .error .typeError
    | some y => if y = 0 then .error .zeroDivisionError else .ok (.num (x / y))

/-- Python `v >= q` against a numeric literal: numbers and booleans compare,
anything else raises `TypeError`. -/
def pyGeNum (v : JVal) (q : ℚ) : Except PyError Bool :=
  match pyToNum v with
  | some a => .ok (decide (q ≤ a))
  | none => .error .typeError

/-- Python `v <= q` against a numeric literal. -/
def pyLeNum (v : JVal) (q : ℚ) : Except PyError Bool :=
  match pyToNum v with
  | some a => .ok (decide (a ≤ q))
  | none => .error .typeError

/-- The test on `rules.py` line 13: `financial.get("nature") == "STANDALONE"`
applied to the value of the `nature` field (`None` when absent). -/
def isNatureStandalone (v : JVal) : Bool :=
  pyEqStr v "STANDALONE"

/-- The loop of `rules.py` lines 12-15: walk the entries of `financials`
carrying the enumeration index; return the index of the first entry whose
`nature` field equals `"STANDALONE"`, or `0` past the end.  A non-dict entry
raises `AttributeError` at `financial.get` (the selector does not validate
entries). -/
def findStandaloneFrom : List JVal → Int → Except PyError Int
  | [], _ => .ok 0
  | financial :: rest, index =>
    match financial with
    | .obj kvs =>
      if isNatureStandalone ((kvs.lookup "nature").getD .null) then .ok index
      else findStandaloneFrom rest (index + 1)
    | _ => .error .attributeError

/-- `rules.py` lines 1-15, `latest_financial_index`: raise `ValueError` when
the document is `None` or not a dict, or when its `financials` key is missing
or `None`; otherwise iterate the value.  Iterating a non-sequence number or
boolean raises `TypeError`; iterating a dict yields its string keys and a
string yields its characters, so the first iteration step raises
`AttributeError` at `financial.get` unless the value is empty, in which case
the loop body never runs and the function returns `0`. -/
def latest_financial_index (data : JVal) : Except PyError Int :=
  match data with
  | .obj kvs =>
    match (kvs.lookup "financials").getD .null with
    | .null => .error .valueError
    | .list fins => findStandaloneFrom fins 0
    | .str s => if s.toList.isEmpty then .ok 0 else .error .attributeError
    | .obj fkvs => if fkvs.isEmpty then .ok 0 else .error .attributeError
    | .num _ => .error .typeError
    | .bool _ => .error .typeError
  | _ => .error .valueError

/-- The expression `data.get("financials")[financial_index]` that opens every
metric derivation (`rules.py` lines 29, 55, 76 and 107). -/
def financial_entry_at (data : JVal) (financial_index : Int) : Except PyError JVal := do
  let financials ← pyGet data "financials" .null
  pySubscript financials financial_index

/-- `rules.py` lines 18-38, `profit_margin`. -/
def profit_margin (data : JVal) (financial_index : Int) : Except PyError JVal := do
  let financial_entry ← financial_entry_at data financial_index
  let pnl ← pyGet financial_entry "pnl" (.obj [])
  let net_income ← pyGet pnl "netIncome" (.num 0)
  let lineItems ← pyGet pnl "lineItems" (.obj [])
  let total_revenue_v ← pyGet lineItems "netRevenue" (.num 0)
  if pyEqNum total_revenue_v 0 then return (.num 0)
  else pyDiv net_income total_revenue_v

/-- `rules.py` lines 41-58, `total_revenue`. -/
def total_revenue (data : JVal) (financial_index : Int) : Except PyError JVal := do
  let financial_entry ← financial_entry_at data financial_index
  let pnl ← pyGet financial_entry "pnl" (.obj [])
  let lineItems ← pyGet pnl "lineItems" (.obj [])
  pyGet lineItems "netRevenue" (.num 0)

/-- `rules.py` lines 76-82: the borrowings part of `total_borrowing`, up to
and including the sum `long_term_borrowing + short_term_borrowing`, which the
source computes before it calls `total_revenue`. -/
def borrowings_sum (data : JVal) (financial_index : Int) : Except PyError JVal := do
  let financial_entry ← financial_entry_at data financial_index
  let balance_sheet ← pyGet financial_entry "bs" (.obj [])
  let long_term_borrowing ← pyGet balance_sheet "longTermBorrowings" (.num 0)
  let short_term_borrowing ← pyGet balance_sheet "shortTermBorrowings" (.num 0)
  pyAdd long_term_borrowing short_term_borrowing

/-- `rules.py` lines 61-89, `total_borrowing`: the borrowings-to-revenue
ratio, `0.0` when the revenue is `0`. -/
def total_borrowing (data : JVal) (financial_index : Int) : Except PyError JVal := do
  let total_borrowings ← borrowings_sum data financial_index
  let revenue ← total_revenue data financial_index
  if pyEqNum revenue 0 then return (.num 0)
  else pyDiv total_borrowings revenue

/-- `rules.py` lines 92-117, `iscr`. -/
def iscr (data : JVal) (financial_index : Int) : Except PyError JVal := do
  let financial_entry ← financial_entry_at data financial_index
  let pnl ← pyGet financial_entry "pnl" (.obj [])
  let profit_before_interest_and_tax ← pyGet pnl "profitBeforeInterestAndTax" (.num 0)
  let depreciation ← pyGet pnl "depreciation" (.num 0)
  let interest_expenses ← pyGet pnl "interestExpenses" (.num 0)
  let s ← pyAdd profit_before_interest_and_tax depreciation
  let numerator ← pyAdd s (.num 1)
  let denominator ← pyAdd interest_expenses (.num 1)
  pyDiv numerator denominator

/-- `rules.py` lines 120-136, `iscr_flag`: the conditional expression on line
136 first evaluates `is_ratio >= 2` and then evaluates `FLAGS.GREEN` or
`FLAGS.RED`; the name `FLAGS` is neither defined nor imported anywhere in the
module, so whichever branch is taken raises `NameError`. -/
def iscr_flag (data : JVal) (financial_index : Int) : Except PyError JVal := do
  let is_ratio ← iscr data financial_index
  let _c ← pyGeNum is_ratio 2
  .error .nameError

/-- `rules.py` lines 139-155, `total_revenue_5cr_flag`: evaluates
`revenue >= 50000000` and then raises `NameError` on the undefined `FLAGS`. -/
def total_revenue_5cr_flag (data : JVal) (financial_index : Int) : Except PyError JVal := do
  let revenue ← total_revenue data financial_index
  let _c ← pyGeNum revenue 50000000
  .error .nameError

/-- `rules.py` lines 158-174, `borrowing_to_revenue_flag`: evaluates
`ratio <= 0.25` and then raises `NameError` on the undefined `FLAGS`. -/
def borrowing_to_revenue_flag (data : JVal) (financial_index : Int) : Except PyError JVal := do
  let ratio ← total_borrowing data financial_index
  let _c ← pyLeNum ratio (1 / 4)
  .error .nameError

/-- `model.py` lines 7-18, `analyze_financial_data`: the dict literal
evaluates its values in order, so `latest_financial_index(data)` runs first;
the next value expression is `total_revenue(data)`, a call that supplies one
argument to a function of two required parameters, so Python raises
`TypeError` at the call before the body of `total_revenue` runs, and the
results dict (and the `json.dumps` of it) is never produced. -/
def analyze_financial_data (data : JVal) : Except PyError JVal := do
  let _latest ← latest_financial_index data
  .error .typeError

/-- The end-to-end example document of the spec: a CONSOLIDATED entry before
a STANDALONE one. -/
def finsExample : List JVal :=
  [.obj [("nature", .str "CONSOLIDATED"),
         ("pnl", .obj [("netIncome", .num 100),
                       ("lineItems", .obj [("netRevenue", .num 1000)])])],
   .obj [("nature", .str "STANDALONE"),
         ("pnl", .obj [("netIncome", .num 200),
                       ("lineItems", .obj [("netRevenue", .num 800)])])]]

/-- The key-value pairs of the end-to-end example document. -/
def kvsExample : List (String × JVal) :=
  [("financials", .list finsExample)]

/-- A well-formed document whose single entry would classify GREEN on the
iscr threshold: iscr is (9+0+1)/(4+1) = 2, revenue 100, borrowings 10+10. -/
def docRich : JVal :=
  .obj [("financials", .list [.obj
    [("nature", .str "STANDALONE"),
     ("pnl", .obj [("netIncome", .num 50),
                   ("profitBeforeInterestAndTax", .num 9),
                   ("depreciation", .num 0),
                   ("interestExpenses", .num 4),
                   ("lineItems", .obj [("netRevenue", .num 100)])]),
     ("bs", .obj [("longTermBorrowings", .num 10),
                  ("shortTermBorrowings", .num 10)])]])]

/-- A minimal valid document: one entry with no substructure at all. -/
def docMinimal : JVal :=
  .obj [("financials", .list [.obj []])]

/-- A document whose entry reports a negative `interestExpenses` of `-1`,
making the iscr denominator `-1 + 1 = 0`. -/
def docNegInterest : JVal :=
  .obj [("financials", .list [.obj
    [("pnl", .obj [("interestExpenses", .num (-1))])]])]

/-- The profit-and-loss object of `docInterestFree`. -/
def pnlInterestFree : JVal :=
  .obj [("profitBeforeInterestAndTax", .num 3),
        ("depreciation", .num 2),
        ("interestExpenses", .num 0)]

/-- The single entry of `docInterestFree`. -/
def entryInterestFree : JVal :=
  .obj [("pnl", pnlInterestFree)]

/-- A document with zero interest expenses: iscr is (3+2+1)/(0+1). -/
def docInterestFree : JVal :=
  .obj [("financials", .list [entryInterestFree])]

/-- A document with borrowings but no revenue: the ratio denominators are
`0`. -/
def docZeroRevenue : JVal :=
  .obj [("financials", .list [.obj
    [("bs", .obj [("longTermBorrowings", .num 7)])]])]

/-- The entries of `docOneEntry`: a single empty object. -/
def finsOneEntry : List JVal :=
  [.obj []]

/-- The key-value pairs of `docOneEntry`. -/
def kvsOneEntry : List (String × JVal) :=
  [("financials", .list finsOneEntry)]

/-- A document whose `financials` list holds a bare number instead of an
object. -/
def docNumberEntry : JVal :=
  .obj [("financials", .list [.num 5])]

/-- The selection predicate of the loop in `rules.py` lines 12-14, as a test
on one entry: the entry is a dict whose `nature` field holds the string
`"STANDALONE"`.  Used to state what index the selector returns. -/
def entry_is_standalone (e : JVal) : Bool :=
  match e with
  | .obj kvs => isNatureStandalone ((kvs.lookup "nature").getD .null)
  | _ => false

/-- The position of the first entry satisfying `entry_is_standalone`, stated
the way the spec states it: `some j` for the earliest such `j`, `none` when
no entry qualifies. -/
def firstStandaloneIdx : List JVal → Option Nat
  | [] => none
  | e :: rest =>
    if entry_is_standalone e then some 0
    else (firstStandaloneIdx rest).map (fun j => j + 1)

theorem ok_bind {α β : Type} (a : α) (f : α → Except PyError β) :
    (Except.ok a : Except PyError α) >>= f = f a := rfl

theorem error_bind {α β : Type} (e : PyError) (f : α → Except PyError β) :
    (Except.error e : Except PyError α) >>= f = Except.error e := rfl

theorem pure_eq_ok {α : Type} (a : α) :
    (pure a : Except PyError α) = Except.ok a := rfl

theorem bind_ok_inv {α β : Type} (x : Except PyError α) (f : α → Except PyError β) (b : β)
    (h : (x >>= f) = Except.ok b) : ∃ a, x = Except.ok a ∧ f a = Except.ok b := by
  cases x with
  | error e => rw [error_bind] at h; exact absurd h (by simp)
  | ok a => exact ⟨a, rfl, by rwa [ok_bind] at h⟩

theorem bind_ne_error {α β : Type} (x : Except PyError α) (f : α → Except PyError β)
    (E : PyError) (hx : x ≠ Except.error E) (hf : ∀ a, f a ≠ Except.error E) :
    (x >>= f) ≠ Except.error E := by
  cases x with
  | error e =>
    rw [error_bind]
    intro hc
    injection hc with h1
    exact hx (by rw [h1])
  | ok a =>
    rw [ok_bind]
    exact hf a

theorem pyGet_obj (kvs : List (String × JVal)) (k : String) (d : JVal) :
    pyGet (.obj kvs) k d = .ok ((kvs.lookup k).getD d) := rfl

theorem pyGet_ok_obj (v : JVal) (k : String) (d w : JVal) (h : pyGet v k d = .ok w) :
    ∃ kvs, v = .obj kvs ∧ w = (kvs.lookup k).getD d := by
  cases v <;> simp [pyGet] at h
  exact ⟨_, rfl, h.symm⟩

theorem financial_entry_at_obj (kvs : List (String × JVal)) (i : Int) :
    financial_entry_at (.obj kvs) i = pySubscript ((kvs.lookup "financials").getD .null) i := rfl

theorem total_revenue_unfold (data : JVal) (i : Int) :
    total_revenue data i =
      financial_entry_at data i >>= fun financial_entry =>
      pyGet financial_entry "pnl" (.obj []) >>= fun pnl =>
      pyGet pnl "lineItems" (.obj []) >>= fun lineItems =>
      pyGet lineItems "netRevenue" (.num 0) := rfl

theorem profit_margin_unfold (data : JVal) (i : Int) :
    profit_margin data i =
      financial_entry_at data i >>= fun financial_entry =>
      pyGet financial_entry "pnl" (.obj []) >>= fun pnl =>
      pyGet pnl "netIncome" (.num 0) >>= fun net_income =>
      pyGet pnl "lineItems" (.obj []) >>= fun lineItems =>
      pyGet lineItems "netRevenue" (.num 0) >>= fun total_revenue_v =>
      if pyEqNum total_revenue_v 0 then pure (.num 0)
      else pyDiv net_income total_revenue_v := rfl

theorem borrowings_sum_unfold (data : JVal) (i : Int) :
    borrowings_sum data i =
      financial_entry_at data i >>= fun financial_entry =>
      pyGet financial_entry "bs" (.obj []) >>= fun balance_sheet =>
      pyGet balance_sheet "longTermBorrowings" (.num 0) >>= fun long_term =>
      pyGet balance_sheet "shortTermBorrowings" (.num 0) >>= fun short_term =>
      pyAdd long_term short_term := rfl

theorem total_borrowing_unfold (data : JVal) (i : Int) :
    total_borrowing data i =
      borrowings_sum data i >>= fun total_borrowings =>
      total_revenue data i >>= fun revenue =>
      if pyEqNum revenue 0 then pure (.num 0)
      else pyDiv total_borrowings revenue := rfl

theorem iscr_unfold (data : JVal) (i : Int) :
    iscr data i =
      financial_entry_at data i >>= fun financial_entry =>
      pyGet financial_entry "pnl" (.obj []) >>= fun pnl =>
      pyGet pnl "profitBeforeInterestAndTax" (.num 0) >>= fun pbit =>
      pyGet pnl "depreciation" (.num 0) >>= fun dep =>
      pyGet pnl "interestExpenses" (.num 0) >>= fun interest =>
      pyAdd pbit dep >>= fun s =>
      pyAdd s (.num 1) >>= fun numerator =>
      pyAdd interest (.num 1) >>= fun denominator =>
      pyDiv numerator denominator := rfl

theorem iscr_flag_unfold (data : JVal) (i : Int) :
    iscr_flag data i =
      iscr data i >>= fun is_ratio =>
      pyGeNum is_ratio 2 >>= fun _c =>
      Except.error .nameError := rfl

theorem total_revenue_5cr_flag_unfold (data : JVal) (i : Int) :
    total_revenue_5cr_flag data i =
      total_revenue data i >>= fun revenue =>
      pyGeNum revenue 50000000 >>= fun _c =>
      Except.error .nameError := rfl

theorem borrowing_to_revenue_flag_unfold (data : JVal) (i : Int) :
    borrowing_to_revenue_flag data i =
      total_borrowing data i >>= fun ratio =>
      pyLeNum ratio (1 / 4) >>= fun _c =>
      Except.error .nameError := rfl

theorem pyGet_ne_zeroDiv (v : JVal) (k : String) (d : JVal) :
    pyGet v k d ≠ Except.error PyError.zeroDivisionError := by
  cases v <;> simp [pyGet]

theorem pySubscript_ne_zeroDiv (v : JVal) (i : Int) :
    pySubscript v i ≠ Except.error PyError.zeroDivisionError := by
  cases v <;> simp only [pySubscript] <;> try simp
  · split
    · split <;> simp
    · simp
  · split
    · split <;> simp
    · simp

theorem pyAdd_ne_zeroDiv (a b : JVal) :
    pyAdd a b ≠ Except.error PyError.zeroDivisionError := by
  cases a <;> cases b <;> simp [pyAdd, pyToNum] <;> split <;> simp

theorem pyDiv_ne_zeroDiv (n d : JVal) (hd : pyEqNum d 0 = false) :
    pyDiv n d ≠ Except.error PyError.zeroDivisionError := by
  cases d with
  | num q =>
    have hq : q ≠ 0 := by simpa [pyEqNum] using hd
    cases n <;> simp [pyDiv, pyToNum, hq]
  | bool b =>
    cases b with
    | false => simp [pyEqNum] at hd
    | true => cases n <;> simp [pyDiv, pyToNum]
  | null => cases n <;> simp [pyDiv, pyToNum]
  | str s => cases n <;> simp [pyDiv, pyToNum]
  | list l => cases n <;> simp [pyDiv, pyToNum]
  | obj kvs => cases n <;> simp [pyDiv, pyToNum]

theorem financial_entry_at_ne_zeroDiv (data : JVal) (i : Int) :
    financial_entry_at data i ≠ Except.error PyError.zeroDivisionError := by
  apply bind_ne_error _ _ _ (pyGet_ne_zeroDiv data "financials" .null)
  intro a
  exact pySubscript_ne_zeroDiv a i

theorem total_revenue_ne_zeroDiv (data : JVal) (i : Int) :
    total_revenue data i ≠ Except.error PyError.zeroDivisionError := by
  rw [total_revenue_unfold]
  apply bind_ne_error _ _ _ (financial_entry_at_ne_zeroDiv data i)
  intro entry
  apply bind_ne_error _ _ _ (pyGet_ne_zeroDiv entry "pnl" (.obj []))
  intro pnl
  apply bind_ne_error _ _ _ (pyGet_ne_zeroDiv pnl "lineItems" (.obj []))
  intro lineItems
  exact pyGet_ne_zeroDiv lineItems "netRevenue" (.num 0)

theorem borrowings_sum_ne_zeroDiv (data : JVal) (i : Int) :
    borrowings_sum data i ≠ Except.error PyError.zeroDivisionError := by
  rw [borrowings_sum_unfold]
  apply bind_ne_error _ _ _ (financial_entry_at_ne_zeroDiv data i)
  intro entry
  apply bind_ne_error _ _ _ (pyGet_ne_zeroDiv entry "bs" (.obj []))
  intro bs
  apply bind_ne_error _ _ _ (pyGet_ne_zeroDiv bs "longTermBorrowings" (.num 0))
  intro lt
  apply bind_ne_error _ _ _ (pyGet_ne_zeroDiv bs "shortTermBorrowings" (.num 0))
  intro st
  exact pyAdd_ne_zeroDiv lt st

theorem guarded_div_ne_zeroDiv (n v : JVal) :
    (if pyEqNum v 0 then (pure (.num 0) : Except PyError JVal) else pyDiv n v) ≠
      Except.error PyError.zeroDivisionError := by
  cases hc : pyEqNum v 0 with
  | true => simp [hc, pure_eq_ok]
  | false =>
    rw [if_neg (by simp [hc])]
    exact pyDiv_ne_zeroDiv n v hc

theorem findStandaloneFrom_ne_valueError (fins : List JVal) (i : Int) :
    findStandaloneFrom fins i ≠ Except.error PyError.valueError := by
  induction fins generalizing i with
  | nil => simp [findStandaloneFrom]
  | cons f rest ih =>
    cases f <;> simp only [findStandaloneFrom] <;> try simp
    split
    · simp
    · exact ih (i + 1)

theorem findStandaloneFrom_spec (fins : List JVal) (hm : fins.all isDict = true) (i : Int) :
    findStandaloneFrom fins i =
      .ok (match firstStandaloneIdx fins with
           | some j => i + (j : Int)
           | none => 0) := by
  induction fins generalizing i with
  | nil => simp [findStandaloneFrom, firstStandaloneIdx]
  | cons f rest ih =>
    rw [List.all_cons, Bool.and_eq_true] at hm
    obtain ⟨hf, hrest⟩ := hm
    cases f with
    | obj kvs =>
      cases hns : isNatureStandalone ((kvs.lookup "nature").getD .null) with
      | true =>
        simp [findStandaloneFrom, firstStandaloneIdx, entry_is_standalone, hns]
      | false =>
        have hstep : findStandaloneFrom (JVal.obj kvs :: rest) i =
            findStandaloneFrom rest (i + 1) := by
          simp [findStandaloneFrom, hns]
        have hps : entry_is_standalone (JVal.obj kvs) = false := by
          simp [entry_is_standalone, hns]
        rw [hstep, ih hrest (i + 1)]
        simp only [firstStandaloneIdx, hps, Bool.false_eq_true, if_false]
        cases hidx : firstStandaloneIdx rest with
        | none => simp
        | some j =>
          have hm1 : Option.map (fun j => j + 1) (some j) = some (j + 1) := rfl
          rw [hm1]
          show Except.ok (i + 1 + (j : Int)) = Except.ok (i + ((j : Int) + 1))
          rw [show i + 1 + (j : Int) = i + ((j : Int) + 1) by ring]
    | null => simp [isDict] at hf
    | bool b => simp [isDict] at hf
    | num q => simp [isDict] at hf
    | str s => simp [isDict] at hf
    | list l => simp [isDict] at hf

theorem pyIndex_nonneg_eq (i : Int) (n : Nat) (h : 0 ≤ i) : pyIndex i n = i :=
  if_neg (by omega)

theorem pySubscript_neg (xs : List JVal) (i : Int)
    (h1 : -(xs.length : Int) ≤ i) (h2 : i < 0) :
    pySubscript (.list xs) i = pySubscript (.list xs) ((xs.length : Int) + i) := by
  have e1 : pyIndex i xs.length = i + (xs.length : Int) := if_pos h2
  have e2 : pyIndex ((xs.length : Int) + i) xs.length = (xs.length : Int) + i :=
    pyIndex_nonneg_eq _ _ (by omega)
  have e3 : (i + (xs.length : Int)).toNat = ((xs.length : Int) + i).toNat := by omega
  simp only [pySubscript, e1, e2, e3]
  rw [Int.add_comm i (xs.length : Int)]

theorem latest_financial_index_obj (kvs : List (String × JVal)) :
    latest_financial_index (.obj kvs) =
      match (kvs.lookup "financials").getD .null with
      | .null => .error .valueError
      | .list fins => findStandaloneFrom fins 0
      | .str s => if s.toList.isEmpty then .ok 0 else .error .attributeError
      | .obj fkvs => if fkvs.isEmpty then .ok 0 else .error .attributeError
      | .num _ => .error .typeError
      | .bool _ => .error .typeError := rfl

/-- C1: for every document whose `financials` value is a sequence of
mappings, `latest_financial_index` returns the index of the first entry whose
`nature` field equals "STANDALONE"; if no entry matches, or if `financials`
is present but empty, it returns 0. -/
theorem latest_financial_index_first_standalone (kvs : List (String × JVal))
    (fins : List JVal)
    (hf : (kvs.lookup "financials").getD .null = .list fins)
    (hm : fins.all isDict = true) :
    latest_financial_index (.obj kvs) =
      .ok (((firstStandaloneIdx fins).getD 0 : Nat) : Int) := by
  rw [latest_financial_index_obj, hf]
  show findStandaloneFrom fins 0 = Except.ok (((firstStandaloneIdx fins).getD 0 : Nat) : Int)
  rw [findStandaloneFrom_spec fins hm 0]
  cases hidx : firstStandaloneIdx fins with
  | none => rfl
  | some j =>
    show Except.ok (0 + (j : Int)) = Except.ok (((j : Nat) : Int))
    rw [zero_add]

/-- C1 witness: on the end-to-end example document of the spec (a CONSOLIDATED
entry followed by a STANDALONE one) the selector returns index 1. -/
theorem latest_financial_index_first_standalone_witness :
    latest_financial_index (.obj kvsExample) = .ok 1 :=
  latest_financial_index_first_standalone kvsExample finsExample rfl rfl

/-- C6: `latest_financial_index` fails with the InvalidInput condition (the
`ValueError` of the source) exactly when the document is not a mapping (this
covers `None`) or when its `financials` key is missing or null; in every
other situation, malformed `financials` contents included, the result is
never `ValueError` — the selector does not itself validate that `financials`
is a sequence of mappings. -/
theorem latest_financial_index_invalidInput_iff (data : JVal) :
    latest_financial_index data = Except.error PyError.valueError ↔
      (isDict data = false ∨
        ∃ kvs, data = JVal.obj kvs ∧
          (kvs.lookup "financials").getD JVal.null = JVal.null) := by
  cases data with
  | null => simp [latest_financial_index, isDict]
  | bool b => simp [latest_financial_index, isDict]
  | num q => simp [latest_financial_index, isDict]
  | str s => simp [latest_financial_index, isDict]
  | list l => simp [latest_financial_index, isDict]
  | obj kvs =>
    cases hv : (kvs.lookup "financials").getD .null with
    | null =>
      rw [latest_financial_index_obj, hv]
      show Except.error PyError.valueError = Except.error PyError.valueError ↔ _
      constructor
      · intro _
        exact Or.inr ⟨kvs, rfl, hv⟩
      · intro _
        rfl
    | list fins =>
      rw [latest_financial_index_obj, hv]
      show findStandaloneFrom fins 0 = Except.error PyError.valueError ↔ _
      constructor
      · intro h
        exact absurd h (findStandaloneFrom_ne_valueError fins 0)
      · rintro (hd | ⟨kvs2, hk, hl⟩)
        · simp [isDict] at hd
        · injection hk with h1
          rw [← h1, hv] at hl
          exact absurd hl (by simp)
    | str s =>
      rw [latest_financial_index_obj, hv]
      show (if s.toList.isEmpty then (Except.ok 0 : Except PyError Int)
          else Except.error PyError.attributeError) = Except.error PyError.valueError ↔ _
      constructor
      · intro h
        split at h <;> simp at h
      · rintro (hd | ⟨kvs2, hk, hl⟩)
        · simp [isDict] at hd
        · injection hk with h1
          rw [← h1, hv] at hl
          exact absurd hl (by simp)
    | obj fkvs =>
      rw [latest_financial_index_obj, hv]
      show (if fkvs.isEmpty then (Except.ok 0 : Except PyError Int)
          else Except.error PyError.attributeError) = Except.error PyError.valueError ↔ _
      constructor
      · intro h
        split at h <;> simp at h
      · rintro (hd | ⟨kvs2, hk, hl⟩)
        · simp [isDict] at hd
        · injection hk with h1
          rw [← h1, hv] at hl
          exact absurd hl (by simp)
    | num q =>
      rw [latest_financial_index_obj, hv]
      show Except.error PyError.typeError = Except.error PyError.valueError ↔ _
      constructor
      · intro h
        simp at h
      · rintro (hd | ⟨kvs2, hk, hl⟩)
        · simp [isDict] at hd
        · injection hk with h1
          rw [← h1, hv] at hl
          exact absurd hl (by simp)
    | bool b =>
      rw [latest_financial_index_obj, hv]
      show Except.error PyError.typeError = Except.error PyError.valueError ↔ _
      constructor
      · intro h
        simp at h
      · rintro (hd | ⟨kvs2, hk, hl⟩)
        · simp [isDict] at hd
        · injection hk with h1
          rw [← h1, hv] at hl
          exact absurd hl (by simp)

/-- C2 (code-bug evidence): on a minimal valid document the orchestrator
raises `TypeError` instead of producing the results mapping, because
`model.py` invokes `total_revenue(data)` with one argument while the function
requires `(data, financial_index)`; the call fails for every document, so the
promised mapping of `latest_financial_index`, `total_revenue` and
`profit_margin` is never produced. -/
theorem analyze_financial_data_raises_typeError :
    analyze_financial_data docMinimal = Except.error PyError.typeError := rfl

/-- C3 (code-bug evidence): on a well-formed document whose metrics lie on
the GREEN side of every threshold (iscr is exactly 2, the boundary the spec
marks GREEN), each flag classifier raises `NameError` instead of returning a
flag, because the name `FLAGS` is never defined or imported in `rules.py`. -/
theorem flag_classifiers_raise_nameError_on_green_input :
    iscr docRich 0 = Except.ok (.num 2) ∧
    iscr_flag docRich 0 = Except.error PyError.nameError ∧
    total_revenue_5cr_flag docRich 0 = Except.error PyError.nameError ∧
    borrowing_to_revenue_flag docRich 0 = Except.error PyError.nameError := by
  have h1 : iscr docRich 0 = pyDiv (.num (9 + 0 + 1)) (.num (4 + 1)) := rfl
  have h2 : ((4 : ℚ) + 1) = 5 := by norm_num
  have h3 : ((9 : ℚ) + 0 + 1) = 10 := by norm_num
  have hiscr : iscr docRich 0 = Except.ok (.num 2) := by
    rw [h1, h2, h3]
    have h4 : pyDiv (.num 10) (.num 5) = Except.ok (.num (10 / 5)) := rfl
    rw [h4]
    norm_num
  refine ⟨hiscr, ?_, rfl, rfl⟩
  rw [iscr_flag_unfold, hiscr, ok_bind]
  rfl

/-- C4: for every document and financial index, `profit_margin` returns
exactly `0.0` when the extracted revenue denominator compares equal to `0`,
`total_borrowing` returns exactly `0.0` in the same situation provided its
borrowings sum was computed, and neither function can ever raise a
`ZeroDivisionError`. -/
theorem ratio_metrics_zero_revenue_guard (data : JVal) (i : Int) :
    (∀ v, total_revenue data i = Except.ok v → pyEqNum v 0 = true →
      profit_margin data i = Except.ok (.num 0)) ∧
    (∀ v b, total_revenue data i = Except.ok v → pyEqNum v 0 = true →
      borrowings_sum data i = Except.ok b →
      total_borrowing data i = Except.ok (.num 0)) ∧
    profit_margin data i ≠ Except.error PyError.zeroDivisionError ∧
    total_borrowing data i ≠ Except.error PyError.zeroDivisionError := by
  refine ⟨?_, ?_, ?_, ?_⟩
  · intro v htr h0
    rw [total_revenue_unfold] at htr
    obtain ⟨entry, hentry, h1⟩ := bind_ok_inv _ _ _ htr
    obtain ⟨pnl, hpnl, h2⟩ := bind_ok_inv _ _ _ h1
    obtain ⟨li, hli, h3⟩ := bind_ok_inv _ _ _ h2
    obtain ⟨pkvs, hpk, hlival⟩ := pyGet_ok_obj _ _ _ _ hli
    subst hpk
    simp only [profit_margin_unfold, hentry, ok_bind, hpnl, pyGet_obj, ← hlival, h3, h0,
      if_true, pure_eq_ok]
  · intro v b htr h0 hbs
    simp only [total_borrowing_unfold, hbs, ok_bind, htr, h0, if_true, pure_eq_ok]
  · rw [profit_margin_unfold]
    apply bind_ne_error _ _ _ (financial_entry_at_ne_zeroDiv data i)
    intro entry
    apply bind_ne_error _ _ _ (pyGet_ne_zeroDiv entry "pnl" (.obj []))
    intro pnl
    apply bind_ne_error _ _ _ (pyGet_ne_zeroDiv pnl "netIncome" (.num 0))
    intro net_income
    apply bind_ne_error _ _ _ (pyGet_ne_zeroDiv pnl "lineItems" (.obj []))
    intro lineItems
    apply bind_ne_error _ _ _ (pyGet_ne_zeroDiv lineItems "netRevenue" (.num 0))
    intro trv
    exact guarded_div_ne_zeroDiv net_income trv
  · rw [total_borrowing_unfold]
    apply bind_ne_error _ _ _ (borrowings_sum_ne_zeroDiv data i)
    intro tb
    apply bind_ne_error _ _ _ (total_revenue_ne_zeroDiv data i)
    intro revenue
    exact guarded_div_ne_zeroDiv tb revenue

/-- C4 witness: a document with borrowings of 7 and no revenue; both ratios
come out exactly 0. -/
theorem ratio_metrics_zero_revenue_guard_witness :
    profit_margin docZeroRevenue 0 = Except.ok (.num 0) ∧
    total_borrowing docZeroRevenue 0 = Except.ok (.num 0) := by
  obtain ⟨h1, h2, _, _⟩ := ratio_metrics_zero_revenue_guard docZeroRevenue 0
  exact ⟨h1 (.num 0) rfl rfl, h2 (.num 0) (.num (7 + 0)) rfl rfl rfl⟩

/-- C5 counterexample: a document reporting `interestExpenses = -1` makes
the iscr denominator `-1 + 1 = 0`, so `iscr` raises `ZeroDivisionError`
rather than returning the formula value — refuting the claim that `iscr`
never divides by a denominator smaller than 1 for every document. -/
theorem iscr_negative_interest_zero_division :
    iscr docNegInterest 0 = Except.error PyError.zeroDivisionError := by
  have h1 : iscr docNegInterest 0 = pyDiv (.num (0 + 0 + 1)) (.num (-1 + 1)) := rfl
  have h2 : ((-1 : ℚ) + 1) = 0 := by norm_num
  rw [h1, h2]
  rfl

/-- C5 (amended): for every document and financial index whose extracted
`pnl` fields are numbers `pbit`, `dep` and `ie` (each defaulting to 0 when
absent), and whose `interestExpenses` is nonnegative, `iscr` returns exactly
`(pbit + dep + 1) / (ie + 1)`, the denominator `ie + 1` is at least 1, and
when `ie = 0` the result is exactly `pbit + dep + 1`. -/
theorem iscr_formula_nonneg_interest (data : JVal) (i : Int) (entry p : JVal)
    (pbit dep ie : ℚ)
    (hentry : financial_entry_at data i = Except.ok entry)
    (hp : pyGet entry "pnl" (.obj []) = Except.ok p)
    (hpbit : pyGet p "profitBeforeInterestAndTax" (.num 0) = Except.ok (.num pbit))
    (hdep : pyGet p "depreciation" (.num 0) = Except.ok (.num dep))
    (hie : pyGet p "interestExpenses" (.num 0) = Except.ok (.num ie))
    (hnn : 0 ≤ ie) :
    iscr data i = Except.ok (.num ((pbit + dep + 1) / (ie + 1))) ∧
    (1 : ℚ) ≤ ie + 1 ∧
    (ie = 0 → iscr data i = Except.ok (.num (pbit + dep + 1))) := by
  have hpos : (0 : ℚ) < ie + 1 := by linarith
  have hne : ie + 1 ≠ 0 := ne_of_gt hpos
  have hiscr : iscr data i = Except.ok (.num ((pbit + dep + 1) / (ie + 1))) := by
    simp only [iscr_unfold, hentry, ok_bind, hp, hpbit, hdep, hie, pyAdd, pyToNum, pyDiv]
    rw [if_neg hne]
  refine ⟨hiscr, by linarith, ?_⟩
  intro h0
  rw [hiscr, h0]
  norm_num

/-- C5 witness: with `profitBeforeInterestAndTax = 3`, `depreciation = 2`
and `interestExpenses = 0` the iscr formula holds, the denominator is 1, and
the zero-interest special case gives exactly `3 + 2 + 1`. -/
theorem iscr_formula_nonneg_interest_witness :
    iscr docInterestFree 0 = Except.ok (.num ((3 + 2 + 1) / (0 + 1))) ∧
    (1 : ℚ) ≤ 0 + 1 ∧
    ((0 : ℚ) = 0 → iscr docInterestFree 0 = Except.ok (.num (3 + 2 + 1))) :=
  iscr_formula_nonneg_interest docInterestFree 0 entryInterestFree pnlInterestFree
    3 2 0 rfl rfl rfl rfl rfl (by norm_num)

/-- C7: for every document and financial index whose selected entry is a
mapping with no `pnl` and no `bs` key at all, every metric derivation
succeeds with the missing nested numeric fields defaulting to 0:
`total_revenue`, `profit_margin` and `total_borrowing` evaluate to `0.0` and
`iscr` evaluates to `(0 + 0 + 1) / (0 + 1) = 1`. -/
theorem metrics_default_on_missing_pnl_bs (data : JVal) (i : Int)
    (ekvs : List (String × JVal))
    (hentry : financial_entry_at data i = Except.ok (.obj ekvs))
    (hp : ekvs.lookup "pnl" = none) (hb : ekvs.lookup "bs" = none) :
    total_revenue data i = Except.ok (.num 0) ∧
    profit_margin data i = Except.ok (.num 0) ∧
    total_borrowing data i = Except.ok (.num 0) ∧
    iscr data i = Except.ok (.num 1) := by
  have hzero : pyEqNum (.num 0) 0 = true := rfl
  have hpnl : pyGet (.obj ekvs) "pnl" (.obj []) = Except.ok (.obj []) := by
    rw [pyGet_obj, hp]
    rfl
  have hbs0 : pyGet (.obj ekvs) "bs" (.obj []) = Except.ok (.obj []) := by
    rw [pyGet_obj, hb]
    rfl
  have htr : total_revenue data i = Except.ok (.num 0) := by
    simp only [total_revenue_unfold, hentry, ok_bind, hpnl, pyGet_obj, List.lookup_nil,
      Option.getD_none]
  have hpm : profit_margin data i = Except.ok (.num 0) := by
    simp only [profit_margin_unfold, hentry, ok_bind, hpnl, pyGet_obj, List.lookup_nil,
      Option.getD_none, hzero, if_true, pure_eq_ok]
  have hbsum : borrowings_sum data i = Except.ok (.num (0 + 0)) := by
    simp only [borrowings_sum_unfold, hentry, ok_bind, hbs0, pyGet_obj, List.lookup_nil,
      Option.getD_none, pyAdd, pyToNum]
  have htb : total_borrowing data i = Except.ok (.num 0) := by
    simp only [total_borrowing_unfold, hbsum, ok_bind, htr, hzero, if_true, pure_eq_ok]
  have hiscr : iscr data i = Except.ok (.num 1) := by
    simp only [iscr_unfold, hentry, ok_bind, hpnl, pyGet_obj, List.lookup_nil,
      Option.getD_none, pyAdd, pyToNum, pyDiv]
    rw [if_neg (by norm_num : ¬((0 : ℚ) + 1 = 0))]
    norm_num
  exact ⟨htr, hpm, htb, hiscr⟩

/-- C7 witness: on the document with `financials = [{}]` all metrics default
to 0 and iscr evaluates to 1. -/
theorem metrics_default_on_missing_pnl_bs_witness :
    total_revenue (.obj kvsOneEntry) 0 = Except.ok (.num 0) ∧
    profit_margin (.obj kvsOneEntry) 0 = Except.ok (.num 0) ∧
    total_borrowing (.obj kvsOneEntry) 0 = Except.ok (.num 0) ∧
    iscr (.obj kvsOneEntry) 0 = Except.ok (.num 1) :=
  metrics_default_on_missing_pnl_bs (.obj kvsOneEntry) 0 [] rfl rfl rfl

/-- C8 counterexample: on the empty-mapping document (no `financials` key)
each flag classifier fails with `TypeError` — not with the `NameError` the
claim asserts for every document and index — because the underlying metric
subscripts `None` before the undefined name `FLAGS` is ever reached. -/
theorem flag_classifiers_not_always_nameError :
    iscr_flag (.obj []) 0 = Except.error PyError.typeError ∧
    total_revenue_5cr_flag (.obj []) 0 = Except.error PyError.typeError ∧
    borrowing_to_revenue_flag (.obj []) 0 = Except.error PyError.typeError ∧
    PyError.typeError ≠ PyError.nameError :=
  ⟨rfl, rfl, rfl, by decide⟩

/-- C8 (amended): whenever the underlying metric evaluates successfully to a
number, the corresponding flag classifier fails with `NameError` instead of
returning a flag, because the name `FLAGS` is never defined or imported in
the rules module. -/
theorem flag_classifiers_nameError_when_metric_numeric (data : JVal) (i : Int) :
    (∀ q : ℚ, iscr data i = Except.ok (.num q) →
      iscr_flag data i = Except.error PyError.nameError) ∧
    (∀ q : ℚ, total_revenue data i = Except.ok (.num q) →
      total_revenue_5cr_flag data i = Except.error PyError.nameError) ∧
    (∀ q : ℚ, total_borrowing data i = Except.ok (.num q) →
      borrowing_to_revenue_flag data i = Except.error PyError.nameError) := by
  refine ⟨?_, ?_, ?_⟩
  · intro q h
    simp only [iscr_flag_unfold, h, ok_bind, pyGeNum, pyToNum]
  · intro q h
    simp only [total_revenue_5cr_flag_unfold, h, ok_bind, pyGeNum, pyToNum]
  · intro q h
    simp only [borrowing_to_revenue_flag_unfold, h, ok_bind, pyLeNum, pyToNum]

/-- C8 witness: on a rich well-formed document all three metrics are
numbers, and all three classifiers raise `NameError`. -/
theorem flag_classifiers_nameError_when_metric_numeric_witness :
    iscr_flag docRich 0 = Except.error PyError.nameError ∧
    total_revenue_5cr_flag docRich 0 = Except.error PyError.nameError ∧
    borrowing_to_revenue_flag docRich 0 = Except.error PyError.nameError := by
  obtain ⟨h1, h2, h3⟩ := flag_classifiers_nameError_when_metric_numeric docRich 0
  refine ⟨?_, h2 100 rfl, h3 ((10 + 10) / 100) rfl⟩
  apply h1 2
  have ha : iscr docRich 0 = pyDiv (.num (9 + 0 + 1)) (.num (4 + 1)) := rfl
  have hb : ((4 : ℚ) + 1) = 5 := by norm_num
  have hcc : ((9 : ℚ) + 0 + 1) = 10 := by norm_num
  rw [ha, hb, hcc]
  have hd : pyDiv (.num 10) (.num 5) = Except.ok (.num (10 / 5)) := rfl
  rw [hd]
  norm_num

/-- C9: for every mapping document whose `financials` key is missing or
null, every metric derivation fails with `TypeError` (subscripting `None`),
which is neither the InvalidInput `ValueError` nor an `IndexError`. -/
theorem metrics_typeError_on_missing_financials (kvs : List (String × JVal)) (i : Int)
    (h : (kvs.lookup "financials").getD .null = .null) :
    total_revenue (.obj kvs) i = Except.error PyError.typeError ∧
    profit_margin (.obj kvs) i = Except.error PyError.typeError ∧
    total_borrowing (.obj kvs) i = Except.error PyError.typeError ∧
    iscr (.obj kvs) i = Except.error PyError.typeError ∧
    PyError.typeError ≠ PyError.valueError ∧
    PyError.typeError ≠ PyError.indexError := by
  have he : financial_entry_at (.obj kvs) i = Except.error PyError.typeError := by
    rw [financial_entry_at_obj, h]
    rfl
  have hbs : borrowings_sum (.obj kvs) i = Except.error PyError.typeError := by
    simp only [borrowings_sum_unfold, he, error_bind]
  refine ⟨?_, ?_, ?_, ?_, by decide, by decide⟩
  · simp only [total_revenue_unfold, he, error_bind]
  · simp only [profit_margin_unfold, he, error_bind]
  · simp only [total_borrowing_unfold, hbs, error_bind]
  · simp only [iscr_unfold, he, error_bind]

/-- C9 witness: the empty mapping document. -/
theorem metrics_typeError_on_missing_financials_witness :
    total_revenue (.obj []) 0 = Except.error PyError.typeError ∧
    profit_margin (.obj []) 0 = Except.error PyError.typeError ∧
    total_borrowing (.obj []) 0 = Except.error PyError.typeError ∧
    iscr (.obj []) 0 = Except.error PyError.typeError ∧
    PyError.typeError ≠ PyError.valueError ∧
    PyError.typeError ≠ PyError.indexError :=
  metrics_typeError_on_missing_financials [] 0 rfl

/-- C10 counterexample: with `financials = [5]` (a non-mapping entry) and
index `-1`, every metric derivation fails with `AttributeError` — refuting
the claim that the metric derivations "do not fail" for every document with
non-empty `financials` and every in-range negative index. -/
theorem metrics_can_fail_at_negative_index :
    total_revenue docNumberEntry (-1) = Except.error PyError.attributeError ∧
    profit_margin docNumberEntry (-1) = Except.error PyError.attributeError ∧
    total_borrowing docNumberEntry (-1) = Except.error PyError.attributeError ∧
    iscr docNumberEntry (-1) = Except.error PyError.attributeError :=
  ⟨rfl, rfl, rfl, rfl⟩

/-- C10 (amended): for every document whose `financials` is a non-empty
sequence and every integer index `i` with `-len ≤ i ≤ -1`, each metric
derivation resolves the subscript by Python negative indexing and behaves
exactly as it does at position `len(financials) + i` — in particular the
negative index itself never causes a failure, though the entry found there
may still be malformed. -/
theorem metrics_negative_index_eq_offset (kvs : List (String × JVal)) (fins : List JVal)
    (i : Int) (hf : (kvs.lookup "financials").getD .null = .list fins)
    (h1 : -(fins.length : Int) ≤ i) (h2 : i < 0) :
    total_revenue (.obj kvs) i = total_revenue (.obj kvs) ((fins.length : Int) + i) ∧
    profit_margin (.obj kvs) i = profit_margin (.obj kvs) ((fins.length : Int) + i) ∧
    total_borrowing (.obj kvs) i = total_borrowing (.obj kvs) ((fins.length : Int) + i) ∧
    iscr (.obj kvs) i = iscr (.obj kvs) ((fins.length : Int) + i) := by
  have he : financial_entry_at (.obj kvs) i =
      financial_entry_at (.obj kvs) ((fins.length : Int) + i) := by
    rw [financial_entry_at_obj, financial_entry_at_obj, hf]
    exact pySubscript_neg fins i h1 h2
  have htr : total_revenue (.obj kvs) i =
      total_revenue (.obj kvs) ((fins.length : Int) + i) := by
    rw [total_revenue_unfold, total_revenue_unfold, he]
  have hbs : borrowings_sum (.obj kvs) i =
      borrowings_sum (.obj kvs) ((fins.length : Int) + i) := by
    rw [borrowings_sum_unfold, borrowings_sum_unfold, he]
  refine ⟨htr, ?_, ?_, ?_⟩
  · rw [profit_margin_unfold, profit_margin_unfold, he]
  · rw [total_borrowing_unfold, total_borrowing_unfold, hbs, htr]
  · rw [iscr_unfold, iscr_unfold, he]

/-- C10 witness: on the one-entry document, index `-1` computes exactly what
index `1 + (-1) = 0` computes, for all four metrics. -/
theorem metrics_negative_index_eq_offset_witness :
    total_revenue (.obj kvsOneEntry) (-1) =
      total_revenue (.obj kvsOneEntry) ((finsOneEntry.length : Int) + (-1)) ∧
    profit_margin (.obj kvsOneEntry) (-1) =
      profit_margin (.obj kvsOneEntry) ((finsOneEntry.length : Int) + (-1)) ∧
    total_borrowing (.obj kvsOneEntry) (-1) =
      total_borrowing (.obj kvsOneEntry) ((finsOneEntry.length : Int) + (-1)) ∧
    iscr (.obj kvsOneEntry) (-1) =
      iscr (.obj kvsOneEntry) ((finsOneEntry.length : Int) + (-1)) :=
  metrics_negative_index_eq_offset kvsOneEntry finsOneEntry (-1) rfl (by decide) (by decide)
